import Mathlib

/-!
Shallow embedding of the `discourse-onboarding-tour` theme component.

The embedding follows `javascripts/discourse/initializers/onboarding-tour.js`
(the current initializer, namespace `Main` for the variant-specific parts)
together with the two earlier variants of the same initializer shipped in the
repository (namespaces `Part000` and `Part001B` for the second version found in
the second unnamed file, the one whose `buildTourSteps` takes explicit
welcome/done text arguments).

External collaborators are modelled as parameters:
  * `document.querySelector` becomes an oracle `q : String → Bool` telling
    whether a selector currently matches some element; a found element is
    represented by the selector alternative that matched;
  * `I18n.t(themePrefix(key))` becomes `tr : String → String`;
  * `I18n.currentLocale()` becomes a `locale : String` argument (the empty
    string models a falsy locale);
  * `JSON.parse` becomes a `parse : String → ParseOutcome` oracle;
  * the browser cookie jar becomes a `CookieJar := String → Option String`;
  * `window.innerWidth` becomes `width : Nat`;
  * `window.driver` being loaded becomes `driverLoaded : Bool`.

JavaScript truthiness is modelled explicitly: absent string-valued settings are
`Option String` (or the empty string where the code only ever sees strings),
and the `||` / `??` defaulting operators are translated by dedicated helpers.
-/

/-- JavaScript `a || b` for an optional string field: `undefined` and the
empty string are falsy and select the default. -/
def jsOrDefault (o : Option String) (d : String) : String :=
  match o with
  | some s => if s = "" then d else s
  | none => d

/-- JavaScript `a || b` for a present string value (the empty string is falsy). -/
def jsStrOr (s d : String) : String :=
  if s = "" then d else s

/-- JavaScript `a || b` for an optional numeric field: `undefined` and `0`
are falsy and select the default. -/
def jsIntOr (o : Option Int) (d : Int) : Int :=
  match o with
  | some v => if v = 0 then d else v
  | none => d

/-- Splitting accumulator for `jsSplit`: collects the current segment in
reverse. Structural recursion keeps concrete evaluations kernel-reducible. -/
def jsSplitAux (c : Char) : List Char → List Char → List (List Char)
  | [], acc => [acc.reverse]
  | x :: xs, acc =>
      if x = c then acc.reverse :: jsSplitAux c xs []
      else jsSplitAux c xs (x :: acc)

/-- JavaScript `s.split(sep)` for a one-character separator: the empty string
splits to a list holding one empty segment, and separators at either end
produce empty segments, exactly as in JavaScript. -/
def jsSplit (s : String) (c : Char) : List String :=
  (jsSplitAux c s.toList []).map String.mk

/-- JavaScript `s.trim()`: strip whitespace from both ends. -/
def jsTrim (s : String) : String :=
  String.mk (((s.toList.dropWhile Char.isWhitespace).reverse.dropWhile
    Char.isWhitespace).reverse)

/-- A JavaScript value in a position where the code expects localized text:
`null`/`undefined`, a string, an object mapping language tags to strings, or
any other value (carrying only its truthiness). -/
inductive JsText where
  | vnull : JsText
  | vstr : String → JsText
  | vobj : List (String × String) → JsText
  | vother : Bool → JsText
deriving DecidableEq

/-- JavaScript falsiness of a `JsText` value (the `!textObj` test): `null`,
`undefined` and the empty string are falsy; objects are always truthy. -/
def JsText.isFalsy : JsText → Bool
  | .vnull => true
  | .vstr s => s == ""
  | .vobj _ => false
  | .vother t => !t

/-- JavaScript `a || b` where `a` is a `JsText` value. -/
def jsTextOr (a b : JsText) : JsText :=
  if a.isFalsy then b else a

/-- JavaScript property lookup `obj[k]` on an object literal, modelled as the
first binding of the key in the association list (an object literal cannot
bind the same key twice). -/
def lookupEntry (entries : List (String × String)) (k : String) : Option String :=
  (entries.find? (fun p => p.1 == k)).map (fun p => p.2)

/-- Property lookup followed by the code's truthiness test, as in
`if (textObj[lang]) return textObj[lang]`. -/
def lookupTruthy (entries : List (String × String)) (k : String) : Option String :=
  match lookupEntry entries k with
  | some v => if v = "" then none else some v
  | none => none

/-- The language tag the code derives from the current locale:
`(I18n.currentLocale() || "en").split("-")[0]`. -/
def langOf (locale : String) : String :=
  let loc := if locale = "" then "en" else locale
  (jsSplit loc '-').headD ""

/-- `getLocalizedText` from `onboarding-tour.js` lines 29 to 52: plain strings
are returned as they are; for objects the visitor language is tried first,
then the hardcoded `en` fallback, then the first truthy value, else the empty
string; any other value yields the empty string. -/
def getLocalizedText (textObj : JsText) (locale : String) : String :=
  if textObj.isFalsy then ""
  else
    match textObj with
    | .vstr s => s
    | .vobj entries =>
        let lang := langOf locale
        match lookupTruthy entries lang with
        | some v => v
        | none =>
            match lookupTruthy entries "en" with
            | some v => v
            | none =>
                match (entries.map (fun p => p.2)).find? (fun v => !(v == "")) with
                | some v => v
                | none => ""
    | _ => ""

/-- An author-facing step configuration entry, as parsed from the JSON settings
or taken from the built-in default lists. An absent property is modelled by
the empty string (for string-typed fields) or `JsText.vnull`. -/
structure StepConfig where
  selector : String := ""
  title : JsText := .vnull
  description : JsText := .vnull
  side : String := ""
  align : String := ""
  device : String := ""
deriving DecidableEq

/-- Outcome of handing a string to `JSON.parse`: an exception, a value that is
not an array, or an array of step configurations. -/
inductive ParseOutcome where
  | fail : ParseOutcome
  | nonArray : ParseOutcome
  | array : List StepConfig → ParseOutcome
deriving DecidableEq

/-- `parseStepsConfig` from `onboarding-tour.js` lines 81 to 95. The raw
setting is `Option String` (`none` models an absent value; the empty string is
falsy as well); `parse` is the `JSON.parse` collaborator. -/
def parseStepsConfig (parse : String → ParseOutcome) (jsonString : Option String)
    (defaults : List StepConfig) : List StepConfig :=
  match jsonString with
  | none => defaults
  | some s =>
      if s = "" ∨ s = "[]" then defaults
      else
        match parse s with
        | .fail => defaults
        | .nonArray => defaults
        | .array xs => if xs.length > 0 then xs else defaults

/-- `findElement` from `onboarding-tour.js` lines 97 to 107 (the variant with
the blank-selector guard, shared by the current initializer and the second
unnamed variant). The matched element is represented by the selector
alternative that matched. -/
def findElement (q : String → Bool) (selector : String) : Option String :=
  if selector = "" ∨ jsTrim selector = "" then none
  else ((jsSplit selector ',').map jsTrim).find? q

/-- `isMobileDevice` from `onboarding-tour.js` lines 109 to 111. -/
def isMobileDevice (width : Nat) : Bool :=
  width < 768

/-- `shouldShowStep` from `onboarding-tour.js` lines 113 to 120. -/
def shouldShowStep (step : StepConfig) (width : Nat) : Bool :=
  let device := if step.device = "" then "all" else step.device
  if device = "all" then true
  else
    let isMobile := isMobileDevice width
    if device = "mobile" && isMobile then true
    else if device = "desktop" && !isMobile then true
    else false

/-- The browser cookie jar, abstracted to a map from cookie name to value. -/
def CookieJar : Type := String → Option String

/-- `getCookie`: reading one cookie out of `document.cookie`. -/
def getCookie (jar : CookieJar) (name : String) : Option String :=
  jar name

/-- `setCookie`: the assignment to `document.cookie` replaces the cookie with
the given name and leaves every other cookie unchanged. -/
def setCookie (jar : CookieJar) (name value : String) : CookieJar :=
  fun n => if n = name then some value else jar n

def STORAGE_KEY_ANON : String := "discourse_tour_anonymous_completed"

def STORAGE_KEY_LOGGED_IN : String := "discourse_tour_logged_in_completed"

/-- `getStorageKey` from `onboarding-tour.js` lines 54 to 56. -/
def getStorageKey (isLoggedIn : Bool) : String :=
  if isLoggedIn then STORAGE_KEY_LOGGED_IN else STORAGE_KEY_ANON

/-- `hasCompletedTour` from `onboarding-tour.js` lines 68 to 73. -/
def hasCompletedTour (jar : CookieJar) (isLoggedIn : Bool) : Bool :=
  getCookie jar (getStorageKey isLoggedIn) == some "true"

/-- `markTourCompleted` from `onboarding-tour.js` lines 75 to 79 (the 365-day
expiry is a property of the external store and is not modelled). -/
def markTourCompleted (jar : CookieJar) (isLoggedIn : Bool) : CookieJar :=
  setCookie jar (getStorageKey isLoggedIn) "true"

/-- The raw theme settings object, before `getThemeSettings` applies defaults.
`none` models an absent or `undefined` setting. -/
structure RawSettings where
  tour_enabled : Option Bool := none
  tour_delay_ms : Option Int := none
  target_trust_level : Option Int := none
  tour_steps_anonymous : Option String := none
  tour_steps_logged_in : Option String := none

/-- The resolved theme settings. The `welcome` and `done` fields are kept as
options because the current initializer's `getThemeSettings` never sets them,
so `buildTourSteps` reads them as `undefined`. -/
structure ThemeSettings where
  tour_enabled : Bool
  tour_delay_ms : Int
  target_trust_level : Int
  tour_steps_anonymous : String
  tour_steps_logged_in : String
  welcome_title : Option String := none
  welcome_description : Option String := none
  done_title : Option String := none
  done_description : Option String := none

/-- `getThemeSettings` from `onboarding-tour.js` lines 257 to 265:
`tour_enabled` via `!== false`, `tour_delay_ms` via `|| 1500`,
`target_trust_level` via `?? 4` (nullish coalescing, so `0` is kept),
and the two step JSON strings via `|| "[]"`. -/
def getThemeSettings (raw : RawSettings) : ThemeSettings :=
  { tour_enabled := raw.tour_enabled != some false
    tour_delay_ms := jsIntOr raw.tour_delay_ms 1500
    target_trust_level := raw.target_trust_level.getD 4
    tour_steps_anonymous := jsOrDefault raw.tour_steps_anonymous "[]"
    tour_steps_logged_in := jsOrDefault raw.tour_steps_logged_in "[]" }

/-- The current-user record exposed by the plugin API; `trust_level` may be
absent. -/
structure User where
  trust_level : Option Int := none

/-- `shouldShowTour` from `onboarding-tour.js` lines 220 to 243. -/
def shouldShowTour (ts : ThemeSettings) (isLoggedIn : Bool) (currentUser : Option User)
    (jar : CookieJar) : Bool :=
  if !ts.tour_enabled then false
  else if hasCompletedTour jar isLoggedIn then false
  else if isLoggedIn then
    match currentUser with
    | some u =>
        if jsIntOr u.trust_level 0 > ts.target_trust_level then false else true
    | none => true
  else true

/-- `isHomePage` from `onboarding-tour.js` lines 245 to 255. Each anchored
regex of the form `^/latest/?$` matches exactly the path with or without one
trailing slash, so the whole test expands to this finite set of paths. -/
def isHomePage (url : String) : Bool :=
  url == "/" ||
  url == "/latest" || url == "/latest/" ||
  url == "/top" || url == "/top/" ||
  url == "/categories" || url == "/categories/" ||
  url == "/new" || url == "/new/" ||
  url == "/unread" || url == "/unread/"

/-- Per-page-load trigger state: the `tourTriggered` flag captured by the
`onPageChange` handler, plus a count of `setTimeout(startTour, delay)`
schedules issued so far. -/
structure TriggerState where
  tourTriggered : Bool
  scheduledStarts : Nat
deriving DecidableEq

def initTriggerState : TriggerState :=
  { tourTriggered := false, scheduledStarts := 0 }

/-- One navigation event as handled by the `api.onPageChange` callback in the
initializer (`onboarding-tour.js` lines 285 to 304): already-triggered events
are ignored, then the landing-route allow-list and the completion gate are
consulted, and on success the flag is set in the same step as the schedule. -/
def onPageChange (ts : ThemeSettings) (isLoggedIn : Bool) (user : Option User)
    (jar : CookieJar) (st : TriggerState) (url : String) : TriggerState :=
  if st.tourTriggered then st
  else if !isHomePage url then st
  else if !shouldShowTour ts isLoggedIn user jar then st
  else { tourTriggered := true, scheduledStarts := st.scheduledStarts + 1 }

/-- A whole sequence of navigation events within one page load. -/
def runPageChanges (ts : ThemeSettings) (isLoggedIn : Bool) (user : Option User)
    (jar : CookieJar) (st : TriggerState) (urls : List String) : TriggerState :=
  urls.foldl (onPageChange ts isLoggedIn user jar) st

/-- A step handed to the overlay library by the current initializer: an
optional anchor element and a popover whose side and align are only set for
anchored steps. -/
structure Popover where
  title : String
  description : String
  side : Option String := none
  align : Option String := none
deriving DecidableEq

structure DriverStep where
  element : Option String := none
  popover : Popover
deriving DecidableEq

/-- A step handed to the overlay library by the two earlier variants, whose
popover text fields receive raw JavaScript values (`step.title || "Feature"`
keeps a truthy object as it is). -/
structure RawStep where
  element : Option String := none
  title : JsText
  description : JsText
  side : Option String := none
  align : Option String := none
deriving DecidableEq

namespace Main

/-- The synthetic welcome bookend pushed by `buildTourSteps` lines 126 to 131:
`themeSettings.welcome_title || t("welcome_title")`, likewise for the
description, with no element. -/
def welcomeStep (ts : ThemeSettings) (tr : String → String) : DriverStep :=
  { element := none
    popover :=
      { title := jsOrDefault ts.welcome_title (tr "welcome_title")
        description := jsOrDefault ts.welcome_description (tr "welcome_description") } }

/-- The synthetic done bookend pushed by `buildTourSteps` lines 175 to 180. -/
def doneStep (ts : ThemeSettings) (tr : String → String) : DriverStep :=
  { element := none
    popover :=
      { title := jsOrDefault ts.done_title (tr "done_title")
        description := jsOrDefault ts.done_description (tr "done_description") } }

/-- The body of the `for` loop of `buildTourSteps` lines 134 to 172 for one
configured step: device filtering, centered-step detection, localization, and
element resolution with skip-on-missing. -/
def stepToDriver (locale : String) (width : Nat) (q : String → Bool)
    (step : StepConfig) : Option DriverStep :=
  if !shouldShowStep step width then none
  else
    let isCenteredStep := step.selector = "" ∨ jsTrim step.selector = ""
    let title := getLocalizedText step.title locale
    let description := getLocalizedText step.description locale
    if isCenteredStep then
      some { element := none, popover := { title := title, description := description } }
    else
      match findElement q step.selector with
      | some el =>
          some { element := some el
                 popover :=
                   { title := title, description := description
                     side := some (jsStrOr step.side "bottom")
                     align := some (jsStrOr step.align "center") } }
      | none => none

/-- The non-synthetic part of the built sequence. -/
def middleSteps (cfg : List StepConfig) (locale : String) (width : Nat)
    (q : String → Bool) : List DriverStep :=
  cfg.filterMap (stepToDriver locale width q)

/-- `buildTourSteps` from `onboarding-tour.js` lines 122 to 183: the welcome
bookend, then the surviving configured steps in order, then the done bookend. -/
def buildTourSteps (cfg : List StepConfig) (ts : ThemeSettings) (tr : String → String)
    (locale : String) (width : Nat) (q : String → Bool) : List DriverStep :=
  welcomeStep ts tr :: middleSteps cfg locale width q ++ [doneStep ts tr]

/-- `startTour` from `onboarding-tour.js` lines 185 to 218. The result is
`none` when the run is skipped without touching the overlay library, and
`some steps` when `window.driver.js.driver({..., steps}).drive()` is invoked. -/
def startTour (driverLoaded : Bool) (cfg : List StepConfig) (ts : ThemeSettings)
    (tr : String → String) (locale : String) (width : Nat) (q : String → Bool) :
    Option (List DriverStep) :=
  if !driverLoaded then none
  else
    let steps := buildTourSteps cfg ts tr locale width q
    if steps.length = 0 then none
    else some steps

end Main

namespace Part000

/-- `findElement` from the first unnamed variant, lines 57 to 65: no
blank-selector guard. -/
def findElement (q : String → Bool) (selector : String) : Option String :=
  ((jsSplit selector ',').map jsTrim).find? q

/-- `buildTourSteps` from the first unnamed variant, lines 67 to 105: a
hardcoded welcome bookend, the resolvable configured steps, and a hardcoded
done bookend. -/
def buildTourSteps (cfg : List StepConfig) (q : String → Bool) : List RawStep :=
  { element := none
    title := .vstr "Welcome!"
    description := .vstr "Let us show you around. This quick tour will help you get started." } ::
  cfg.filterMap (fun step =>
    (findElement q step.selector).map (fun el =>
      { element := some el
        title := jsTextOr step.title (.vstr "Feature")
        description := jsTextOr step.description (.vstr "")
        side := some (jsStrOr step.side "bottom")
        align := some (jsStrOr step.align "center") })) ++
  [{ element := none
     title := .vstr "You're All Set!"
     description := .vstr "That's the basics. Explore and enjoy!" }]

/-- `startTour` from the first unnamed variant, lines 107 to 140: the run is
skipped when at most the two synthetic bookends survived. -/
def startTour (driverLoaded : Bool) (cfg : List StepConfig) (q : String → Bool) :
    Option (List RawStep) :=
  if !driverLoaded then none
  else
    let steps := buildTourSteps cfg q
    if steps.length ≤ 2 then none
    else some steps

end Part000

namespace Part001B

/-- The welcome bookend of the second unnamed variant's `buildTourSteps`
(lines 485 to 492): `welcomeTitle || "Welcome!"` and `welcomeDesc || ""`. -/
def welcomeRaw (wT wD : String) : RawStep :=
  { element := none
    title := .vstr (jsStrOr wT "Welcome!")
    description := .vstr (jsStrOr wD "") }

/-- The done bookend of the second unnamed variant's `buildTourSteps`
(lines 527 to 534): `doneTitle || "Done!"` and `doneDesc || ""`. -/
def doneRaw (dT dD : String) : RawStep :=
  { element := none
    title := .vstr (jsStrOr dT "Done!")
    description := .vstr (jsStrOr dD "") }

/-- The body of the `for` loop of the second unnamed variant's
`buildTourSteps` (lines 495 to 524): centered-step detection and element
resolution, with no device filtering in this variant. -/
def stepToRaw (q : String → Bool) (step : StepConfig) : Option RawStep :=
  let isCenteredStep := step.selector = "" ∨ jsTrim step.selector = ""
  if isCenteredStep then
    some { element := none
           title := jsTextOr step.title (.vstr "")
           description := jsTextOr step.description (.vstr "") }
  else
    match findElement q step.selector with
    | some el =>
        some { element := some el
               title := jsTextOr step.title (.vstr "Feature")
               description := jsTextOr step.description (.vstr "")
               side := some (jsStrOr step.side "bottom")
               align := some (jsStrOr step.align "center") }
    | none => none

def middleSteps (cfg : List StepConfig) (q : String → Bool) : List RawStep :=
  cfg.filterMap (stepToRaw q)

/-- `buildTourSteps` from the second unnamed variant, lines 481 to 537: each
bookend is pushed only when its title or description is truthy
(`if (welcomeTitle || welcomeDesc)`). -/
def buildTourSteps (cfg : List StepConfig) (wT wD dT dD : String)
    (q : String → Bool) : List RawStep :=
  (if wT ≠ "" ∨ wD ≠ "" then [welcomeRaw wT wD] else []) ++
  middleSteps cfg q ++
  (if dT ≠ "" ∨ dD ≠ "" then [doneRaw dT dD] else [])

end Part001B

/-- A sample `JSON.parse` collaborator used to instantiate parsing theorems on
concrete inputs. -/
def parseOracle : String → ParseOutcome :=
  fun s =>
    if s = "sample" then .array [{ selector := "#a", title := .vstr "A" }]
    else if s = "[]" then .array []
    else if s = "bad" then .nonArray
    else .fail

/-- Claim C2: for a raw step-configuration input that is absent, the empty
string, the empty-array sentinel, fails to parse, parses to a non-array, or
parses to an empty list, `parseStepsConfig` returns exactly the supplied
built-in default list; an input that parses to a non-empty array is returned
verbatim. The two hypotheses record facts of the real `JSON.parse`: the empty
string fails to parse and the sentinel parses to the empty array. -/
theorem parseStepsConfig_defaults_or_verbatim
    (parse : String → ParseOutcome) (defaults : List StepConfig) (s : String)
    (xs : List StepConfig)
    (hempty : parse "" = .fail) (hsent : parse "[]" = .array []) :
    parseStepsConfig parse none defaults = defaults ∧
    parseStepsConfig parse (some "") defaults = defaults ∧
    parseStepsConfig parse (some "[]") defaults = defaults ∧
    (parse s = .fail → parseStepsConfig parse (some s) defaults = defaults) ∧
    (parse s = .nonArray → parseStepsConfig parse (some s) defaults = defaults) ∧
    (parse s = .array [] → parseStepsConfig parse (some s) defaults = defaults) ∧
    (parse s = .array xs → xs ≠ [] → parseStepsConfig parse (some s) defaults = xs) := by
  refine ⟨rfl, by simp [parseStepsConfig], by simp [parseStepsConfig], ?_, ?_, ?_, ?_⟩
  · intro h
    by_cases hs : s = "" ∨ s = "[]" <;> simp [parseStepsConfig, hs, h]
  · intro h
    by_cases hs : s = "" ∨ s = "[]" <;> simp [parseStepsConfig, hs, h]
  · intro h
    by_cases hs : s = "" ∨ s = "[]" <;> simp [parseStepsConfig, hs, h]
  · intro h hne
    have hs1 : s ≠ "" := by
      intro e
      rw [e, hempty] at h
      cases h
    have hs2 : s ≠ "[]" := by
      intro e
      rw [e, hsent] at h
      cases h
      exact hne rfl
    have hlen : 0 < xs.length := List.length_pos.mpr hne
    simp [parseStepsConfig, hs1, hs2, h, hlen]

/-- Witness for claim C2 at concrete inputs: a parseable non-empty override is
used verbatim and an unparseable input falls back to the default list. -/
theorem parseStepsConfig_defaults_or_verbatim_sample :
    parseStepsConfig parseOracle (some "sample") [{ selector := "#d" }] =
      [{ selector := "#a", title := .vstr "A" }] ∧
    parseStepsConfig parseOracle (some "oops") [{ selector := "#d" }] =
      [{ selector := "#d" }] :=
  ⟨(parseStepsConfig_defaults_or_verbatim parseOracle [{ selector := "#d" }] "sample"
      [{ selector := "#a", title := .vstr "A" }] rfl rfl).2.2.2.2.2.2 rfl (by decide),
   (parseStepsConfig_defaults_or_verbatim parseOracle [{ selector := "#d" }] "oops"
      [] rfl rfl).2.2.2.1 rfl⟩

/-- Claim C4: the device filter keeps a `mobile` step exactly when the viewport
width is strictly below 768, keeps a `desktop` step exactly when the width is
at least 768, and always keeps a step whose device is `all` or absent. -/
theorem shouldShowStep_device (step : StepConfig) (width : Nat) :
    shouldShowStep { step with device := "mobile" } width = decide (width < 768) ∧
    shouldShowStep { step with device := "desktop" } width = decide (768 ≤ width) ∧
    shouldShowStep { step with device := "all" } width = true ∧
    shouldShowStep { step with device := "" } width = true := by
  refine ⟨?_, ?_, ?_, ?_⟩ <;>
    by_cases h : width < 768 <;>
      simp [shouldShowStep, isMobileDevice, h, Nat.not_lt.mp, Nat.le_of_not_lt]

/-- Claim C9 counterexample: a configured delay of `-5` milliseconds is
non-positive, yet the resolved delay is `-5`, not the claimed default of 1500,
because the JavaScript `|| 1500` fallback only fires on falsy values (absent
or zero), and negative numbers are truthy. -/
theorem getThemeSettings_negative_delay_kept :
    (getThemeSettings { tour_delay_ms := some (-5) }).tour_delay_ms = -5 ∧
    (-5 : Int) < 0 ∧
    (getThemeSettings { tour_delay_ms := some (-5) }).tour_delay_ms ≠ 1500 := by
  refine ⟨rfl, by decide, by decide⟩

/-- Claim C9 as amended: the resolved start delay equals 1500 milliseconds
whenever the configured delay is absent or zero, and equals the configured
value otherwise (in particular a negative configured value is kept). -/
theorem getThemeSettings_delay_spec (raw : RawSettings) :
    ((raw.tour_delay_ms = none ∨ raw.tour_delay_ms = some 0) →
      (getThemeSettings raw).tour_delay_ms = 1500) ∧
    (∀ v : Int, raw.tour_delay_ms = some v → v ≠ 0 →
      (getThemeSettings raw).tour_delay_ms = v) := by
  constructor
  · rintro (h | h) <;> simp [getThemeSettings, jsIntOr, h]
  · intro v hv hne
    simp [getThemeSettings, jsIntOr, hv, hne]

/-- Witness for the amended claim C9 at concrete inputs: an absent delay
resolves to 1500 and a configured delay of 900 is kept. -/
theorem getThemeSettings_delay_spec_sample :
    (getThemeSettings { tour_delay_ms := none }).tour_delay_ms = 1500 ∧
    (getThemeSettings { tour_delay_ms := some 900 }).tour_delay_ms = 900 :=
  ⟨(getThemeSettings_delay_spec { tour_delay_ms := none }).1 (Or.inl rfl),
   (getThemeSettings_delay_spec { tour_delay_ms := some 900 }).2 900 rfl (by decide)⟩

/-- A value produced by object property lookup is one of the object's values. -/
theorem lookupEntry_mem (entries : List (String × String)) (k v : String)
    (h : lookupEntry entries k = some v) : v ∈ entries.map (fun p => p.2) := by
  unfold lookupEntry at h
  cases hf : entries.find? (fun p => p.1 == k) with
  | none => rw [hf] at h; cases h
  | some pr =>
    rw [hf] at h
    injection h with h
    exact h ▸ List.mem_map_of_mem _ (List.mem_of_find?_eq_some hf)

/-- When every value of the object is empty, the truthiness-guarded lookup
finds nothing. -/
theorem lookupTruthy_eq_none (entries : List (String × String)) (k : String)
    (h : ∀ p ∈ entries, p.2 = "") : lookupTruthy entries k = none := by
  unfold lookupTruthy
  cases hf : lookupEntry entries k with
  | none => rfl
  | some v =>
    obtain ⟨p, hp, hpv⟩ := List.mem_map.mp (lookupEntry_mem entries k v hf)
    have hve : v = "" := by rw [← hpv]; exact h p hp
    simp [hve]

/-- When every value of the object is empty, the first-truthy-value scan finds
nothing. -/
theorem findTruthy_eq_none (entries : List (String × String))
    (h : ∀ p ∈ entries, p.2 = "") :
    (entries.map (fun p => p.2)).find? (fun v => !(v == "")) = none := by
  rw [List.find?_eq_none]
  intro v hv
  obtain ⟨p, hp, hpv⟩ := List.mem_map.mp hv
  have hve : v = "" := by rw [← hpv]; exact h p hp
  simp [hve]

/-- When some value of the object is non-empty, the first-truthy-value scan
finds a non-empty value of the object. -/
theorem findTruthy_exists (entries : List (String × String))
    (hne : ∃ p ∈ entries, p.2 ≠ "") :
    ∃ v, (entries.map (fun p => p.2)).find? (fun v => !(v == "")) = some v ∧
      v ≠ "" ∧ v ∈ entries.map (fun p => p.2) := by
  cases hf : (entries.map (fun p => p.2)).find? (fun v => !(v == "")) with
  | none =>
    rw [List.find?_eq_none] at hf
    obtain ⟨p, hp, hpne⟩ := hne
    have := hf p.2 (List.mem_map_of_mem _ hp)
    simp only [Bool.not_eq_true', beq_iff_eq, not_not] at this
    simp at this
    exact absurd this hpne
  | some v =>
    refine ⟨v, rfl, ?_, List.mem_of_find?_eq_some hf⟩
    have := List.find?_some hf
    simpa using this

/-- Claim C3: a plain-string `LocalizedText` resolves to that string for every
locale; a language map resolves to the entry for the visitor's language when
that entry is non-empty, else to the non-empty `en` fallback entry, else to
some non-empty value of the map when one exists, else to the empty string. -/
theorem getLocalizedText_resolution (s locale v : String)
    (entries : List (String × String)) :
    getLocalizedText (.vstr s) locale = s ∧
    (lookupEntry entries (langOf locale) = some v → v ≠ "" →
      getLocalizedText (.vobj entries) locale = v) ∧
    (lookupTruthy entries (langOf locale) = none →
      lookupEntry entries "en" = some v → v ≠ "" →
      getLocalizedText (.vobj entries) locale = v) ∧
    (lookupTruthy entries (langOf locale) = none →
      lookupTruthy entries "en" = none →
      (∃ p ∈ entries, p.2 ≠ "") →
      getLocalizedText (.vobj entries) locale ≠ "" ∧
      getLocalizedText (.vobj entries) locale ∈ entries.map (fun p => p.2)) ∧
    ((∀ p ∈ entries, p.2 = "") → getLocalizedText (.vobj entries) locale = "") := by
  refine ⟨?_, ?_, ?_, ?_, ?_⟩
  · by_cases hs : s = "" <;> simp [getLocalizedText, JsText.isFalsy, hs]
  · intro h hne
    have hlt : lookupTruthy entries (langOf locale) = some v := by
      simp [lookupTruthy, h, hne]
    simp [getLocalizedText, JsText.isFalsy, hlt]
  · intro h1 h2 hne
    have hlt : lookupTruthy entries "en" = some v := by
      simp [lookupTruthy, h2, hne]
    simp [getLocalizedText, JsText.isFalsy, h1, hlt]
  · intro h1 h2 hex
    obtain ⟨w, hw, hwne, hwmem⟩ := findTruthy_exists entries hex
    have hres : getLocalizedText (.vobj entries) locale = w := by
      simp [getLocalizedText, JsText.isFalsy, h1, h2, hw]
    exact ⟨hres ▸ hwne, hres ▸ hwmem⟩
  · intro hall
    simp [getLocalizedText, JsText.isFalsy, lookupTruthy_eq_none entries _ hall,
      lookupTruthy_eq_none entries "en" hall, findTruthy_eq_none entries hall]

/-- Witness for claim C3 at concrete inputs: a plain string is returned
verbatim, and a map holding only a `fr` entry, requested under `de`, resolves
to a non-empty value of the map. -/
theorem getLocalizedText_resolution_sample :
    getLocalizedText (.vstr "Hello") "de" = "Hello" ∧
    getLocalizedText (.vobj [("fr", "Bonjour")]) "de" ≠ "" ∧
    getLocalizedText (.vobj [("fr", "Bonjour")]) "de" ∈
      ([("fr", "Bonjour")].map (fun p => p.2)) :=
  ⟨(getLocalizedText_resolution "Hello" "de" "" [("fr", "Bonjour")]).1,
   ((getLocalizedText_resolution "Hello" "de" "" [("fr", "Bonjour")]).2.2.2.1
      (by decide) (by decide) ⟨("fr", "Bonjour"), by decide, by decide⟩).1,
   ((getLocalizedText_resolution "Hello" "de" "" [("fr", "Bonjour")]).2.2.2.1
      (by decide) (by decide) ⟨("fr", "Bonjour"), by decide, by decide⟩).2⟩

/-- Claim C10: the localized-text resolver is total at its interface:
null/undefined values, values that are neither strings nor objects, and
objects without a usable (non-empty) entry all resolve to the empty string. -/
theorem getLocalizedText_total (locale : String) (b : Bool)
    (entries : List (String × String)) :
    getLocalizedText .vnull locale = "" ∧
    getLocalizedText (.vother b) locale = "" ∧
    ((∀ p ∈ entries, p.2 = "") → getLocalizedText (.vobj entries) locale = "") := by
  refine ⟨rfl, ?_, ?_⟩
  · cases b <;> rfl
  · intro hall
    simp [getLocalizedText, JsText.isFalsy, lookupTruthy_eq_none entries _ hall,
      lookupTruthy_eq_none entries "en" hall, findTruthy_eq_none entries hall]

/-- Witness for claim C10 at concrete inputs: an object whose only entry is
empty resolves to the empty string, as do null and a non-string truthy value. -/
theorem getLocalizedText_total_sample :
    getLocalizedText .vnull "en" = "" ∧
    getLocalizedText (.vother true) "en" = "" ∧
    getLocalizedText (.vobj [("en", "")]) "en" = "" :=
  ⟨(getLocalizedText_total "en" true [("en", "")]).1,
   (getLocalizedText_total "en" true [("en", "")]).2.1,
   (getLocalizedText_total "en" true [("en", "")]).2.2 (by decide)⟩

/-- An all-empty cookie jar, used to instantiate gate theorems. -/
def emptyJar : CookieJar := fun _ => none

/-- A sample enabled settings record with a trust-level ceiling of 2. -/
def tsCeiling2 : ThemeSettings :=
  getThemeSettings { target_trust_level := some 2 }

/-- Claim C5: with the visitor class read off the presence of a current user,
the gate holds exactly when the tour is enabled, not already completed for
that class, and, for authenticated visitors only, the trust level is at most
the ceiling; in particular, under a ceiling of 2, trust level 3 is denied,
trust level 2 is allowed and an anonymous visitor is allowed. -/
theorem shouldShowTour_gate (ts : ThemeSettings) (u : Option User) (jar : CookieJar) :
    (shouldShowTour ts u.isSome u jar =
      (ts.tour_enabled && !hasCompletedTour jar u.isSome &&
        (match u with
         | none => true
         | some usr => decide (jsIntOr usr.trust_level 0 ≤ ts.target_trust_level)))) ∧
    shouldShowTour tsCeiling2 true (some { trust_level := some 3 }) emptyJar = false ∧
    shouldShowTour tsCeiling2 true (some { trust_level := some 2 }) emptyJar = true ∧
    shouldShowTour tsCeiling2 false none emptyJar = true := by
  refine ⟨?_, by decide, by decide, by decide⟩
  cases u with
  | none =>
    by_cases h1 : ts.tour_enabled <;>
      by_cases h2 : hasCompletedTour jar false <;>
        simp [shouldShowTour, h1, h2]
  | some usr =>
    by_cases h1 : ts.tour_enabled
    all_goals by_cases h2 : hasCompletedTour jar true
    all_goals by_cases h3 : jsIntOr usr.trust_level 0 > ts.target_trust_level
    all_goals simp [shouldShowTour, h1, h2, h3]
    all_goals omega

/-- Claim C6: recording completion is idempotent on the persisted store, and
after one or two recordings the gate for that visitor class denies the tour. -/
theorem markTourCompleted_idempotent (jar : CookieJar) (b : Bool)
    (ts : ThemeSettings) (user : Option User) :
    markTourCompleted (markTourCompleted jar b) b = markTourCompleted jar b ∧
    shouldShowTour ts b user (markTourCompleted jar b) = false ∧
    shouldShowTour ts b user (markTourCompleted (markTourCompleted jar b) b) = false := by
  have hidem : markTourCompleted (markTourCompleted jar b) b = markTourCompleted jar b := by
    funext n
    by_cases h : n = getStorageKey b <;>
      simp [markTourCompleted, setCookie, h]
  have hdone : hasCompletedTour (markTourCompleted jar b) b = true := by
    simp [hasCompletedTour, getCookie, markTourCompleted, setCookie]
  have hgate : shouldShowTour ts b user (markTourCompleted jar b) = false := by
    by_cases h1 : ts.tour_enabled <;> simp [shouldShowTour, h1, hdone]
  exact ⟨hidem, hgate, by rw [hidem]; exact hgate⟩

/-- Once the per-page-load flag is set, every later navigation event leaves
the trigger state unchanged. -/
theorem onPageChange_triggered (ts : ThemeSettings) (isLoggedIn : Bool)
    (user : Option User) (jar : CookieJar) (st : TriggerState) (url : String)
    (h : st.tourTriggered = true) :
    onPageChange ts isLoggedIn user jar st url = st := by
  simp [onPageChange, h]

/-- A triggered state is a fixed point of any whole event sequence. -/
theorem runPageChanges_triggered (ts : ThemeSettings) (isLoggedIn : Bool)
    (user : Option User) (jar : CookieJar) (st : TriggerState)
    (h : st.tourTriggered = true) :
    ∀ urls : List String, runPageChanges ts isLoggedIn user jar st urls = st := by
  intro urls
  induction urls with
  | nil => rfl
  | cons u us ih =>
    show runPageChanges ts isLoggedIn user jar
      (onPageChange ts isLoggedIn user jar st u) us = st
    rw [onPageChange_triggered ts isLoggedIn user jar st u h]
    exact ih

/-- Starting from an untriggered state, any event sequence schedules at most
one more tour start than was already scheduled. -/
theorem runPageChanges_sched_le (ts : ThemeSettings) (isLoggedIn : Bool)
    (user : Option User) (jar : CookieJar) :
    ∀ (urls : List String) (st : TriggerState), st.tourTriggered = false →
      (runPageChanges ts isLoggedIn user jar st urls).scheduledStarts ≤
        st.scheduledStarts + 1 := by
  intro urls
  induction urls with
  | nil => intro st _; exact Nat.le_succ _
  | cons u us ih =>
    intro st h
    show (runPageChanges ts isLoggedIn user jar
      (onPageChange ts isLoggedIn user jar st u) us).scheduledStarts ≤
      st.scheduledStarts + 1
    by_cases hh : isHomePage u
    · by_cases hg : shouldShowTour ts isLoggedIn user jar
      · have hstep : onPageChange ts isLoggedIn user jar st u =
            { tourTriggered := true, scheduledStarts := st.scheduledStarts + 1 } := by
          simp [onPageChange, h, hh, hg]
        rw [hstep, runPageChanges_triggered ts isLoggedIn user jar _ rfl us]
      · have hstep : onPageChange ts isLoggedIn user jar st u = st := by
          simp [onPageChange, h, hh, hg]
        rw [hstep]
        exact ih st h
    · have hstep : onPageChange ts isLoggedIn user jar st u = st := by
        simp [onPageChange, h, hh]
      rw [hstep]
      exact ih st h

/-- Claim C7: within one page load the trigger controller schedules a start at
most once; the flag is set in the same transition as the (delayed) schedule on
the first permitted event on an allowed route, and any event arriving after
the flag is set leaves the state unchanged. -/
theorem trigger_at_most_once (ts : ThemeSettings) (isLoggedIn : Bool)
    (user : Option User) (jar : CookieJar) :
    (∀ (st : TriggerState) (url : String), st.tourTriggered = true →
      onPageChange ts isLoggedIn user jar st url = st) ∧
    (∀ urls : List String,
      (runPageChanges ts isLoggedIn user jar initTriggerState urls).scheduledStarts ≤ 1) ∧
    (∀ (st : TriggerState) (url : String), st.tourTriggered = false →
      isHomePage url = true → shouldShowTour ts isLoggedIn user jar = true →
      onPageChange ts isLoggedIn user jar st url =
        { tourTriggered := true, scheduledStarts := st.scheduledStarts + 1 }) := by
  refine ⟨fun st url h => onPageChange_triggered ts isLoggedIn user jar st url h,
    fun urls => runPageChanges_sched_le ts isLoggedIn user jar urls initTriggerState rfl,
    fun st url h hh hg => ?_⟩
  simp [onPageChange, h, hh, hg]

/-- Witness for claim C7 at concrete inputs: on the allowed route `/latest`
with an enabled, uncompleted, anonymous configuration, the first event sets
the flag and schedules once, a second event is ignored, and a whole two-event
sequence schedules at most once. -/
theorem trigger_at_most_once_sample :
    onPageChange tsCeiling2 false none emptyJar initTriggerState "/latest" =
      { tourTriggered := true, scheduledStarts := 1 } ∧
    onPageChange tsCeiling2 false none emptyJar
      { tourTriggered := true, scheduledStarts := 1 } "/latest" =
      { tourTriggered := true, scheduledStarts := 1 } ∧
    (runPageChanges tsCeiling2 false none emptyJar initTriggerState
      ["/latest", "/latest"]).scheduledStarts ≤ 1 :=
  ⟨(trigger_at_most_once tsCeiling2 false none emptyJar).2.2 initTriggerState
      "/latest" rfl (by decide) (by decide),
   (trigger_at_most_once tsCeiling2 false none emptyJar).1
      { tourTriggered := true, scheduledStarts := 1 } "/latest" rfl,
   (trigger_at_most_once tsCeiling2 false none emptyJar).2.1 ["/latest", "/latest"]⟩

/-- A translation collaborator whose every lookup resolves to the empty
string, yielding fully-blank synthetic bookends. -/
def trBlank : String → String := fun _ => ""

/-- A document in which no selector matches any element. -/
def qNone : String → Bool := fun _ => false

/-- The resolved settings for an entirely absent raw configuration: enabled,
delay 1500, ceiling 4, sentinel step strings, and no bookend text overrides. -/
def tsDefault : ThemeSettings := getThemeSettings {}

/-- A configured step whose selector matches nothing in `qNone`. -/
def missingStep : StepConfig :=
  { selector := "#missing-element", title := .vstr "X", description := .vstr "Y"
    side := "bottom" }

/-- A centered overlay step whose resolved title and description are empty. -/
def blankCentered : DriverStep :=
  { element := none, popover := { title := "", description := "" } }

/-- Claim C1, evaluated at the failing input: with blank bookend text and a
single configured step whose element is missing, no real (non-synthetic) step
survives, the built sequence is exactly the two blank synthetic bookends, and
the current initializer's `startTour` still invokes the overlay renderer with
that degenerate pair — its `steps.length === 0` guard cannot fire because the
bookends are pushed unconditionally. The first variant's `startTour`, whose
guard is `steps.length <= 2`, skips the same run as the claim demands. -/
theorem startTour_degenerate_renders :
    Main.middleSteps [missingStep] "en" 1024 qNone = [] ∧
    Main.buildTourSteps [missingStep] tsDefault trBlank "en" 1024 qNone =
      [blankCentered, blankCentered] ∧
    Main.startTour true [missingStep] tsDefault trBlank "en" 1024 qNone =
      some [blankCentered, blankCentered] ∧
    Part000.startTour true [missingStep] qNone = none := by
  exact ⟨by decide, by decide, by decide, by decide⟩

/-- Claim C8 counterexample: when both bookends resolve to an empty title and
an empty description, the current initializer's `buildTourSteps` does not omit
them — the built sequence for an empty configuration is the two blank centered
bookends, not the empty sequence the claim requires. -/
theorem buildTourSteps_blank_bookends_kept :
    Main.buildTourSteps [] tsDefault trBlank "en" 1024 qNone =
      [blankCentered, blankCentered] ∧
    Main.buildTourSteps [] tsDefault trBlank "en" 1024 qNone ≠ [] := by
  exact ⟨by decide, by decide⟩

/-- Claim C8 as amended: the synthetic welcome and done bookends are centered
steps; the current initializer's `buildTourSteps` includes them in every built
sequence unconditionally, even when their resolved text is entirely empty,
while the second unnamed variant's `buildTourSteps` omits a bookend exactly
when its resolved title and description are both empty. -/
theorem buildTourSteps_bookends (cfg : List StepConfig) (ts : ThemeSettings)
    (tr : String → String) (locale : String) (width : Nat) (q q2 : String → Bool)
    (cfg2 : List StepConfig) (wT wD dT dD : String) :
    (Main.buildTourSteps cfg ts tr locale width q).head? =
      some (Main.welcomeStep ts tr) ∧
    (Main.buildTourSteps cfg ts tr locale width q).getLast? =
      some (Main.doneStep ts tr) ∧
    (Main.welcomeStep ts tr).element = none ∧
    (Main.doneStep ts tr).element = none ∧
    (wT = "" → wD = "" → dT = "" → dD = "" →
      Part001B.buildTourSteps cfg2 wT wD dT dD q2 = Part001B.middleSteps cfg2 q2) ∧
    ((wT ≠ "" ∨ wD ≠ "") →
      (Part001B.buildTourSteps cfg2 wT wD dT dD q2).head? =
        some (Part001B.welcomeRaw wT wD) ∧
      (Part001B.welcomeRaw wT wD).element = none) ∧
    ((dT ≠ "" ∨ dD ≠ "") →
      (Part001B.buildTourSteps cfg2 wT wD dT dD q2).getLast? =
        some (Part001B.doneRaw dT dD) ∧
      (Part001B.doneRaw dT dD).element = none) := by
  refine ⟨rfl, ?_, rfl, rfl, ?_, ?_, ?_⟩
  · show (Main.welcomeStep ts tr ::
      (Main.middleSteps cfg locale width q ++ [Main.doneStep ts tr])).getLast? =
      some (Main.doneStep ts tr)
    rw [← List.cons_append]
    exact List.getLast?_concat _
  · intro h1 h2 h3 h4
    simp [Part001B.buildTourSteps, h1, h2, h3, h4]
  · intro h
    refine ⟨?_, rfl⟩
    rw [Part001B.buildTourSteps, if_pos h]
    rfl
  · intro h
    refine ⟨?_, rfl⟩
    rw [Part001B.buildTourSteps, if_pos h]
    exact List.getLast?_concat _

/-- Witness for the amended claim C8 at concrete inputs: the current
initializer keeps the (blank) welcome bookend at the head; the second variant
drops both bookends when all four texts are empty, and keeps them at head and
tail when the titles are non-empty. -/
theorem buildTourSteps_bookends_sample :
    (Main.buildTourSteps [] tsDefault trBlank "en" 1024 qNone).head? =
      some (Main.welcomeStep tsDefault trBlank) ∧
    Part001B.buildTourSteps [] "" "" "" "" qNone = Part001B.middleSteps [] qNone ∧
    (Part001B.buildTourSteps [] "Hi" "" "Bye" "" qNone).head? =
      some (Part001B.welcomeRaw "Hi" "") ∧
    (Part001B.buildTourSteps [] "Hi" "" "Bye" "" qNone).getLast? =
      some (Part001B.doneRaw "Bye" "") :=
  ⟨(buildTourSteps_bookends [] tsDefault trBlank "en" 1024 qNone qNone
      [] "" "" "" "").1,
   (buildTourSteps_bookends [] tsDefault trBlank "en" 1024 qNone qNone
      [] "" "" "" "").2.2.2.2.1 rfl rfl rfl rfl,
   ((buildTourSteps_bookends [] tsDefault trBlank "en" 1024 qNone qNone
      [] "Hi" "" "Bye" "").2.2.2.2.2.1 (Or.inl (by decide))).1,
   ((buildTourSteps_bookends [] tsDefault trBlank "en" 1024 qNone qNone
      [] "Hi" "" "Bye" "").2.2.2.2.2.2 (Or.inl (by decide))).1⟩
